import Mathlib

/-
Verification of the x-stitch pattern-generation engine
(src/utils/patternGenerator.js, concatenated into src/Dockerfile).

The JavaScript engine is embedded shallowly: JS Numbers become real
numbers (the idealized semantics; the 1e-10 epsilon nudge is kept as the
exact rational 1/10^10), Math.floor / Math.ceil / Math.round become
Int.floor / Int.ceil / round, the JS remainder operator on integers
becomes Int.tmod (truncated remainder, sign of the dividend) and on
reals becomes jsFmod below.  JS array reads out of range yield
undefined, modelled as Option.  Grids are row-major lists of rows,
exactly as the source builds them.  Note that in Lean, Int.tmod a 0 = a
and x / 0 = 0, whereas JS produces NaN / Infinity in those cases; no
theorem below relies on a cell value produced by such a degenerate
configuration (degenerate configurations are only shown to still yield
a full-size grid, which holds in JS as well since no exception is
thrown there).
-/

open Real

noncomputable section

/-- The 1e-10 tie-breaking epsilon from the source, as an exact rational. -/
def eps : ℝ := 1 / 10 ^ 10

/-- One grid cell: the source stores {color, level} where level is the
already-color-cycled index. JS undefined colors are modelled as none. -/
structure Cell where
  color : Option String
  level : ℤ
deriving DecidableEq

/-- JS array read colors[i] for an integer index: undefined (none) when the
index is negative or out of range. -/
def listGet (colors : List String) (i : ℤ) : Option String :=
  if 0 ≤ i then colors.get? i.toNat else none

/-- Shared cell construction of the concentric generators:
colorIndex = level % colors.length (JS remainder = Int.tmod), and the cell
stores {color: colors[colorIndex], level: colorIndex} (source lines 93-99,
363-368, 459-463). -/
def mkCell (colors : List String) (level : ℤ) : Cell :=
  let colorIndex := Int.tmod level (colors.length : ℤ)
  ⟨listGet colors colorIndex, colorIndex⟩

/-- The double loop `for y in [0,height) for x in [0,width)` filling grid[y][x]. -/
def buildGrid (width height : ℕ) (f : ℕ → ℕ → Cell) : List (List Cell) :=
  (List.range height).map fun y => (List.range width).map fun x => f x y

/-- The geometric center: (width-1)/2 + offset (per axis). -/
def centerCoord (n : ℕ) (offset : ℝ) : ℝ :=
  ((n : ℝ) - 1) / 2 + offset

/-- The four grid corners sampled by the BoundsEstimator, as real pairs. -/
def cornersR (width height : ℕ) : List (ℝ × ℝ) :=
  [(0, 0), ((width : ℝ) - 1, 0), (0, (height : ℝ) - 1),
    ((width : ℝ) - 1, (height : ℝ) - 1)]

/-- JS (maxDistance || 1): 0 is falsy, so a zero maximum falls back to 1. -/
def jsOr1 (x : ℝ) : ℝ :=
  if x = 0 then 1 else x

/-- Truncation toward zero, as used by the JS remainder on non-integers. -/
def jsTrunc (x : ℝ) : ℤ :=
  if 0 ≤ x then ⌊x⌋ else ⌈x⌉

/-- The JS % operator on real operands: x - y * trunc(x / y). -/
def jsFmod (x y : ℝ) : ℝ :=
  x - y * (jsTrunc (x / y) : ℝ)

/-- Math.atan2(y, x), with the JS convention atan2(0, 0) = 0. -/
def jsAtan2 (y x : ℝ) : ℝ :=
  if 0 < x then Real.arctan (y / x)
  else if x < 0 then
    (if 0 ≤ y then Real.arctan (y / x) + π else Real.arctan (y / x) - π)
  else
    (if 0 < y then π / 2 else if y < 0 then -(π / 2) else 0)

/-- Count-mode classification (source lines 88-89, 358-359, 455-456):
level = floor(distance / (maxDistance || 1) * n), then min with n - 1. -/
def countLevel (numSquares : ℤ) (maxD distance : ℝ) : ℤ :=
  min ⌊distance / jsOr1 maxD * (numSquares : ℝ)⌋ (numSquares - 1)

/-- The per-cell level of the three concentric generators.  The JS test
`if (layerThickness)` is true exactly when layerThickness is non-null and
nonzero; otherwise execution falls through to count mode. -/
def jsLevel (layerThickness : Option ℝ) (numSquares : ℤ) (maxD distance : ℝ) : ℤ :=
  match layerThickness with
  | some v => if v = 0 then countLevel numSquares maxD distance
              else ⌊(distance + v / 2) / v⌋
  | none => countLevel numSquares maxD distance

/-- The resolved layer count echoed in the result (source lines 104-106,
373-375, 467-469), guarded by the same truthiness test. -/
def jsResolvedCount (layerThickness : Option ℝ) (numSquares : ℤ) (maxD : ℝ) : ℤ :=
  match layerThickness with
  | some v => if v = 0 then numSquares
              else max 1 ⌈(maxD + v / 2) / v⌉
  | none => numSquares

/-- Chebyshev distance of generateConcentricSquares (source lines 63-64 and
76-78; the corner loop and the cell loop use the identical expression):
rx = (|dx cos + dy sin| + 1e-10) / ratioX, ry likewise, distance = max. -/
def squaresDist (cX cY cosT sinT ratioX ratioY : ℝ) (p : ℝ × ℝ) : ℝ :=
  let dx := p.1 - cX
  let dy := p.2 - cY
  let rx := (|dx * cosT + dy * sinT| + eps) / ratioX
  let ry := (|(-dx) * sinT + dy * cosT| + eps) / ratioY
  max rx ry

/-- squaresDist with the center and tilt trigonometry computed from the
configuration, as the generator hoists them. -/
def squaresDistOf (width height : ℕ) (ratioX ratioY tilt offsetX offsetY : ℝ)
    (p : ℝ × ℝ) : ℝ :=
  squaresDist (centerCoord width offsetX) (centerCoord height offsetY)
    (Real.cos (tilt * π / 180)) (Real.sin (tilt * π / 180)) ratioX ratioY p

/-- BoundsEstimator of generateConcentricSquares (source lines 58-66):
fold of max over the four corners, starting from 0. -/
def squaresMaxDistance (width height : ℕ) (ratioX ratioY tilt offsetX offsetY : ℝ) : ℝ :=
  (cornersR width height).foldl
    (fun acc c => max acc (squaresDistOf width height ratioX ratioY tilt offsetX offsetY c)) 0

/-- Return envelope of generateConcentricSquares (source lines 108-120). -/
structure SquaresResult where
  grid : List (List Cell)
  width : ℕ
  height : ℕ
  numSquares : ℤ
  colors : List String
  ratioX : ℝ
  ratioY : ℝ
  layerThickness : Option ℝ
  tilt : ℝ
  offsetX : ℝ
  offsetY : ℝ

/-- generateConcentricSquares (source lines 36-121). -/
def generateConcentricSquares (width height : ℕ) (numSquares : ℤ) (colors : List String)
    (ratioX ratioY : ℝ) (layerThickness : Option ℝ) (tilt offsetX offsetY : ℝ) :
    SquaresResult :=
  let maxD := squaresMaxDistance width height ratioX ratioY tilt offsetX offsetY
  { grid := buildGrid width height fun x y =>
      mkCell colors (jsLevel layerThickness numSquares maxD
        (squaresDistOf width height ratioX ratioY tilt offsetX offsetY ((x : ℝ), (y : ℝ))))
    width := width, height := height
    numSquares := jsResolvedCount layerThickness numSquares maxD
    colors := colors, ratioX := ratioX, ratioY := ratioY
    layerThickness := layerThickness, tilt := tilt
    offsetX := offsetX, offsetY := offsetY }

/-- Euclidean cell distance of generateConcentricCircles (source lines
349-351): the epsilon is added to the rotated coordinate before the ratio
division, and there is no absolute value. -/
def circlesCellDist (cX cY cosT sinT ratioX ratioY : ℝ) (p : ℝ × ℝ) : ℝ :=
  let dx := p.1 - cX
  let dy := p.2 - cY
  let rx := (dx * cosT + dy * sinT + eps) / ratioX
  let ry := ((-dx) * sinT + dy * cosT + eps) / ratioY
  Real.sqrt (rx * rx + ry * ry)

/-- Corner distance of the circles BoundsEstimator (source lines 337-339):
same as the cell distance but without the epsilon. -/
def circlesCornerDist (cX cY cosT sinT ratioX ratioY : ℝ) (p : ℝ × ℝ) : ℝ :=
  let dx := p.1 - cX
  let dy := p.2 - cY
  let rx := (dx * cosT + dy * sinT) / ratioX
  let ry := ((-dx) * sinT + dy * cosT) / ratioY
  Real.sqrt (rx * rx + ry * ry)

/-- circlesCellDist with hoisted center and trigonometry. -/
def circlesCellDistOf (width height : ℕ) (ratioX ratioY tilt offsetX offsetY : ℝ)
    (p : ℝ × ℝ) : ℝ :=
  circlesCellDist (centerCoord width offsetX) (centerCoord height offsetY)
    (Real.cos (tilt * π / 180)) (Real.sin (tilt * π / 180)) ratioX ratioY p

/-- circlesCornerDist with hoisted center and trigonometry. -/
def circlesCornerDistOf (width height : ℕ) (ratioX ratioY tilt offsetX offsetY : ℝ)
    (p : ℝ × ℝ) : ℝ :=
  circlesCornerDist (centerCoord width offsetX) (centerCoord height offsetY)
    (Real.cos (tilt * π / 180)) (Real.sin (tilt * π / 180)) ratioX ratioY p

/-- BoundsEstimator of generateConcentricCircles (source lines 332-340). -/
def circlesMaxDistance (width height : ℕ) (ratioX ratioY tilt offsetX offsetY : ℝ) : ℝ :=
  (cornersR width height).foldl
    (fun acc c => max acc (circlesCornerDistOf width height ratioX ratioY tilt offsetX offsetY c)) 0

/-- Return envelope of generateConcentricCircles (source lines 377-389). -/
structure CirclesResult where
  grid : List (List Cell)
  width : ℕ
  height : ℕ
  numLayers : ℤ
  colors : List String
  ratioX : ℝ
  ratioY : ℝ
  layerThickness : Option ℝ
  tilt : ℝ
  offsetX : ℝ
  offsetY : ℝ

/-- generateConcentricCircles (source lines 311-390). -/
def generateConcentricCircles (width height : ℕ) (numLayers : ℤ) (colors : List String)
    (ratioX ratioY : ℝ) (layerThickness : Option ℝ) (tilt offsetX offsetY : ℝ) :
    CirclesResult :=
  let maxD := circlesMaxDistance width height ratioX ratioY tilt offsetX offsetY
  { grid := buildGrid width height fun x y =>
      mkCell colors (jsLevel layerThickness numLayers maxD
        (circlesCellDistOf width height ratioX ratioY tilt offsetX offsetY ((x : ℝ), (y : ℝ))))
    width := width, height := height
    numLayers := jsResolvedCount layerThickness numLayers maxD
    colors := colors, ratioX := ratioX, ratioY := ratioY
    layerThickness := layerThickness, tilt := tilt
    offsetX := offsetX, offsetY := offsetY }

/-- Angular fold of the polygon metric (source lines 436 and 449):
((theta % angleStep) + angleStep) % angleStep, with the JS real remainder. -/
def polyFold (theta angleStep : ℝ) : ℝ :=
  jsFmod (jsFmod theta angleStep + angleStep) angleStep

/-- Polygon distance from already rotated and scaled coordinates (source
lines 434-436 and 447-449): r * cos(folded theta - angleStep / 2). -/
def polygonsDistCore (rx ry angleStep : ℝ) : ℝ :=
  let r := Real.sqrt (rx * rx + ry * ry)
  let theta := jsAtan2 ry rx
  r * Real.cos (polyFold theta angleStep - angleStep / 2)

/-- Per-cell polygon distance (source lines 444-449), epsilon included. -/
def polygonsCellDistOf (width height : ℕ) (angleStep ratioX ratioY tilt offsetX offsetY : ℝ)
    (p : ℝ × ℝ) : ℝ :=
  let dx := p.1 - centerCoord width offsetX
  let dy := p.2 - centerCoord height offsetY
  let cosT := Real.cos (tilt * π / 180)
  let sinT := Real.sin (tilt * π / 180)
  let rx := (dx * cosT + dy * sinT + eps) / ratioX
  let ry := ((-dx) * sinT + dy * cosT + eps) / ratioY
  polygonsDistCore rx ry angleStep

/-- Corner polygon distance of the BoundsEstimator (source lines 428-437),
without the epsilon. -/
def polygonsCornerDistOf (width height : ℕ) (angleStep ratioX ratioY tilt offsetX offsetY : ℝ)
    (p : ℝ × ℝ) : ℝ :=
  let dx := p.1 - centerCoord width offsetX
  let dy := p.2 - centerCoord height offsetY
  let cosT := Real.cos (tilt * π / 180)
  let sinT := Real.sin (tilt * π / 180)
  let rx := (dx * cosT + dy * sinT) / ratioX
  let ry := ((-dx) * sinT + dy * cosT) / ratioY
  polygonsDistCore rx ry angleStep

/-- BoundsEstimator of generateConcentricPolygons (source lines 427-438). -/
def polygonsMaxDistance (width height : ℕ) (angleStep ratioX ratioY tilt offsetX offsetY : ℝ) : ℝ :=
  (cornersR width height).foldl
    (fun acc c =>
      max acc (polygonsCornerDistOf width height angleStep ratioX ratioY tilt offsetX offsetY c)) 0

/-- Return envelope of generateConcentricPolygons (source lines 471-484). -/
structure PolygonsResult where
  grid : List (List Cell)
  width : ℕ
  height : ℕ
  numSides : ℤ
  numLayers : ℤ
  colors : List String
  ratioX : ℝ
  ratioY : ℝ
  layerThickness : Option ℝ
  tilt : ℝ
  offsetX : ℝ
  offsetY : ℝ

/-- generateConcentricPolygons (source lines 407-485): sides = max(3,
numSides), angleStep = 2 pi / sides. -/
def generateConcentricPolygons (width height : ℕ) (numSides numLayers : ℤ)
    (colors : List String) (ratioX ratioY : ℝ) (layerThickness : Option ℝ)
    (tilt offsetX offsetY : ℝ) : PolygonsResult :=
  let sides := max 3 numSides
  let angleStep := 2 * π / (sides : ℝ)
  let maxD := polygonsMaxDistance width height angleStep ratioX ratioY tilt offsetX offsetY
  { grid := buildGrid width height fun x y =>
      mkCell colors (jsLevel layerThickness numLayers maxD
        (polygonsCellDistOf width height angleStep ratioX ratioY tilt offsetX offsetY
          ((x : ℝ), (y : ℝ))))
    width := width, height := height
    numSides := sides
    numLayers := jsResolvedCount layerThickness numLayers maxD
    colors := colors, ratioX := ratioX, ratioY := ratioY
    layerThickness := layerThickness, tilt := tilt
    offsetX := offsetX, offsetY := offsetY }

/-- Stripe index (source lines 176-177): stripePos = floor(rx / stripeWidth),
then the double remainder ((stripePos % n) + n) % n over the palette size. -/
def stripesIndex (colorsLen : ℤ) (stripeWidth rx : ℝ) : ℤ :=
  let stripePos := ⌊rx / stripeWidth⌋
  Int.tmod (Int.tmod stripePos colorsLen + colorsLen) colorsLen

/-- The along-normal coordinate of a stripes cell (source line 173):
rx = dx cos + dy sin + 1e-10, no ratio division and no absolute value. -/
def stripesRxOf (width height : ℕ) (tilt offsetX offsetY : ℝ) (p : ℝ × ℝ) : ℝ :=
  let dx := p.1 - centerCoord width offsetX
  let dy := p.2 - centerCoord height offsetY
  dx * Real.cos (tilt * π / 180) + dy * Real.sin (tilt * π / 180) + eps

/-- Return envelope of generateStripes (source lines 186-195). -/
structure StripesResult where
  grid : List (List Cell)
  width : ℕ
  height : ℕ
  stripeWidth : ℝ
  colors : List String
  tilt : ℝ
  offsetX : ℝ
  offsetY : ℝ

/-- generateStripes (source lines 152-196): the cell stores the stripe index
directly as its level (it is already in range by the double remainder). -/
def generateStripes (width height : ℕ) (stripeWidth : ℝ) (colors : List String)
    (tilt offsetX offsetY : ℝ) : StripesResult :=
  { grid := buildGrid width height fun x y =>
      let idx := stripesIndex (colors.length : ℤ) stripeWidth
        (stripesRxOf width height tilt offsetX offsetY ((x : ℝ), (y : ℝ)))
      ⟨listGet colors idx, idx⟩
    width := width, height := height
    stripeWidth := stripeWidth, colors := colors
    tilt := tilt, offsetX := offsetX, offsetY := offsetY }

/-- Cube-coordinate rounding with the largest-error correction (source lines
242-256): round q, r and -q-r, then recompute the axis with the largest
rounding error as the negative sum of the other two. -/
def hexRound (q r : ℝ) : ℤ × ℤ × ℤ :=
  let rx := round q
  let ry := round r
  let rz := round (-q - r)
  let xDiff := |(rx : ℝ) - q|
  let yDiff := |(ry : ℝ) - r|
  let zDiff := |(rz : ℝ) - (-q - r)|
  if xDiff > yDiff ∧ xDiff > zDiff then (-ry - rz, ry, rz)
  else if yDiff > zDiff then (rx, -rx - rz, rz)
  else (rx, ry, -rx - ry)

/-- Face decision by angular band (source lines 270-277): angle is in
degrees; [-150, -30) is the top face 0, [-30, 90) the right face 1,
everything else the left face 2. -/
def cubesFace (angle : ℝ) : ℤ :=
  if -150 ≤ angle ∧ angle < -30 then 0
  else if -30 ≤ angle ∧ angle < 90 then 1
  else 2

/-- Per-cell face classification of generateIsometricCubes (source lines
228-277): fractional axial coordinates, hexRound, conversion of the rounded
hex back to pixel space, then the angular band of the cell around that hex
center. -/
def cubesCellLevel (cX cY hexRadius : ℝ) (x y : ℕ) : ℤ :=
  let adjX := (x : ℝ) - cX
  let adjY := (y : ℝ) - cY
  let q := (Real.sqrt 3 / 3 * adjX - 1 / 3 * adjY) / hexRadius
  let r := (2 / 3 * adjY) / hexRadius
  let t := hexRound q r
  let hexCenterX := hexRadius * Real.sqrt 3 * ((t.1 : ℝ) + (t.2.1 : ℝ) / 2)
  let hexCenterY := hexRadius * 3 / 2 * (t.2.1 : ℝ)
  let angle := jsAtan2 (adjY - hexCenterY) (adjX - hexCenterX) * 180 / π
  cubesFace angle

/-- The three-slot color map of generateIsometricCubes (source lines
214-218), read at the face index: colors[i % colors.length], undefined
(none) for an empty palette. -/
def colorMapGet (colors : List String) (i : ℕ) : Option String :=
  if colors.length = 0 then none else colors.get? (i % colors.length)

/-- Return envelope of generateIsometricCubes (source lines 286-294). -/
structure CubesResult where
  grid : List (List Cell)
  width : ℕ
  height : ℕ
  cubeSize : ℝ
  colors : List String
  offsetX : ℝ
  offsetY : ℝ

/-- generateIsometricCubes (source lines 209-295): hexRadius = max(2,
cubeSize); every cell stores the face index as its level, and the face color
from the cycled three-slot color map. -/
def generateIsometricCubes (width height : ℕ) (cubeSize : ℝ) (colors : List String)
    (offsetX offsetY : ℝ) : CubesResult :=
  let hexRadius := max 2 cubeSize
  let cX := centerCoord width offsetX
  let cY := centerCoord height offsetY
  { grid := buildGrid width height fun x y =>
      let l := cubesCellLevel cX cY hexRadius x y
      ⟨colorMapGet colors l.toNat, l⟩
    width := width, height := height
    cubeSize := cubeSize, colors := colors
    offsetX := offsetX, offsetY := offsetY }

/-- Truncated remainder of a nonnegative dividend by a positive divisor is
nonnegative and below the divisor. -/
theorem tmod_bounds_of_nonneg {a b : ℤ} (ha : 0 ≤ a) (hb : 0 < b) :
    0 ≤ a.tmod b ∧ a.tmod b < b :=
  ⟨Int.tmod_nonneg b ha, Int.tmod_lt_of_pos a hb⟩

/-- Truncated remainder of a negative dividend by a positive divisor is
nonpositive and above the negated divisor. -/
theorem tmod_bounds_of_neg {a b : ℤ} (h : a < 0) (hb : 0 < b) :
    a.tmod b ≤ 0 ∧ -b < a.tmod b := by
  cases a with
  | ofNat n => exact absurd h (by simp [Int.ofNat_eq_natCast])
  | negSucc m =>
    cases b with
    | ofNat k =>
      have he : (Int.negSucc m).tmod (Int.ofNat k) = -Int.ofNat (m.succ % k) := by
        rw [Int.tmod.eq_def]
      have hk : 0 < k := by simpa [Int.ofNat_eq_natCast] using hb
      have h1 : m.succ % k < k := Nat.mod_lt _ hk
      rw [he]
      simp only [Int.ofNat_eq_natCast]
      omega
    | negSucc k => exact absurd hb (by simp [Int.negSucc_lt_zero])

/-- The double remainder of the stripes generator always lands in
[0, colorsLen) when the palette is nonempty. -/
theorem stripesIndex_bounds (colorsLen : ℤ) (stripeWidth rx : ℝ) (hc : 0 < colorsLen) :
    0 ≤ stripesIndex colorsLen stripeWidth rx ∧
      stripesIndex colorsLen stripeWidth rx < colorsLen := by
  unfold stripesIndex
  set a := ⌊rx / stripeWidth⌋ with ha
  have hbt : -colorsLen < a.tmod colorsLen ∧ a.tmod colorsLen < colorsLen := by
    rcases lt_or_le a 0 with h | h
    · have := tmod_bounds_of_neg h hc
      omega
    · have := tmod_bounds_of_nonneg h hc
      omega
  have hsum : 0 ≤ a.tmod colorsLen + colorsLen := by omega
  exact tmod_bounds_of_nonneg hsum hc

/-- The initial accumulator is below a fold of max. -/
theorem le_foldl_max {α : Type} (l : List α) (g : α → ℝ) (a : ℝ) :
    a ≤ l.foldl (fun acc c => max acc (g c)) a := by
  induction l generalizing a with
  | nil => simp
  | cons hd tl ih => exact le_trans (le_max_left a (g hd)) (ih (max a (g hd)))

/-- The corner fold of every BoundsEstimator starts at 0, so the maximum
distance is nonnegative. -/
theorem squaresMaxDistance_nonneg (width height : ℕ) (ratioX ratioY tilt offsetX offsetY : ℝ) :
    0 ≤ squaresMaxDistance width height ratioX ratioY tilt offsetX offsetY :=
  le_foldl_max _ _ 0

/-- The circles maximum distance is nonnegative. -/
theorem circlesMaxDistance_nonneg (width height : ℕ) (ratioX ratioY tilt offsetX offsetY : ℝ) :
    0 ≤ circlesMaxDistance width height ratioX ratioY tilt offsetX offsetY :=
  le_foldl_max _ _ 0

/-- The polygons maximum distance is nonnegative. -/
theorem polygonsMaxDistance_nonneg (width height : ℕ)
    (angleStep ratioX ratioY tilt offsetX offsetY : ℝ) :
    0 ≤ polygonsMaxDistance width height angleStep ratioX ratioY tilt offsetX offsetY :=
  le_foldl_max _ _ 0

/-- The count-mode divisor (maxDistance || 1) is positive whenever the
maximum distance is nonnegative. -/
theorem jsOr1_pos {x : ℝ} (hx : 0 ≤ x) : 0 < jsOr1 x := by
  unfold jsOr1
  split
  · norm_num
  · exact lt_of_le_of_ne hx (Ne.symm (by assumption))

/-- Count-mode levels lie in [0, n-1] for a nonnegative distance, a
nonnegative maximum and a positive layer count. -/
theorem countLevel_bounds {n : ℤ} (hn : 1 ≤ n) {maxD d : ℝ} (hm : 0 ≤ maxD) (hd : 0 ≤ d) :
    0 ≤ countLevel n maxD d ∧ countLevel n maxD d ≤ n - 1 := by
  unfold countLevel
  constructor
  · apply le_min
    · apply Int.floor_nonneg.mpr
      apply mul_nonneg (div_nonneg hd (le_of_lt (jsOr1_pos hm)))
      exact_mod_cast le_trans zero_le_one (by exact_mod_cast hn)
    · omega
  · exact min_le_right _ _

/-- Thickness-mode levels are nonnegative for a nonnegative distance and a
positive thickness. -/
theorem thickLevel_nonneg {v d : ℝ} (hv : 0 < v) (hd : 0 ≤ d) :
    0 ≤ ⌊(d + v / 2) / v⌋ := by
  apply Int.floor_nonneg.mpr
  apply div_nonneg _ (le_of_lt hv)
  positivity

/-- Any jsLevel produced under a valid sizing mode is nonnegative. -/
theorem jsLevel_nonneg {t : Option ℝ} {n : ℤ} {maxD d : ℝ} (hm : 0 ≤ maxD) (hd : 0 ≤ d)
    (hv : ∀ v, t = some v → 0 < v) (hn : t = none → 1 ≤ n) :
    0 ≤ jsLevel t n maxD d := by
  cases t with
  | some v =>
    have hv0 : 0 < v := hv v rfl
    simp only [jsLevel]
    rw [if_neg (ne_of_gt hv0)]
    exact thickLevel_nonneg hv0 hd
  | none =>
    simp only [jsLevel]
    exact (countLevel_bounds (hn rfl) hm hd).1

/-- The stored level of mkCell is in [0, colors.length) whenever the raw
level is nonnegative and the palette is nonempty. -/
theorem mkCell_level_bounds (colors : List String) {level : ℤ} (hl : 0 ≤ level)
    (hc : 1 ≤ colors.length) :
    0 ≤ (mkCell colors level).level ∧ (mkCell colors level).level < (colors.length : ℤ) := by
  have hcz : (0 : ℤ) < (colors.length : ℤ) := by exact_mod_cast hc
  exact tmod_bounds_of_nonneg hl hcz

/-- The squares distance is nonnegative for positive ratios. -/
theorem squaresDist_nonneg (cX cY cosT sinT : ℝ) {ratioX ratioY : ℝ} (hx : 0 < ratioX)
    (hy : 0 < ratioY) (p : ℝ × ℝ) : 0 ≤ squaresDist cX cY cosT sinT ratioX ratioY p := by
  unfold squaresDist
  apply le_max_iff.mpr
  left
  apply div_nonneg _ (le_of_lt hx)
  have h := abs_nonneg ((p.1 - cX) * cosT + (p.2 - cY) * sinT)
  have heps : (0:ℝ) ≤ eps := by norm_num [eps]
  linarith

/-- The circles cell distance is a square root, hence nonnegative. -/
theorem circlesCellDist_nonneg (cX cY cosT sinT ratioX ratioY : ℝ) (p : ℝ × ℝ) :
    0 ≤ circlesCellDist cX cY cosT sinT ratioX ratioY p :=
  Real.sqrt_nonneg _

/-- A property holding for every generated cell value holds for every cell
of the built grid. -/
theorem buildGrid_forall {width height : ℕ} {f : ℕ → ℕ → Cell} {P : Cell → Prop}
    (h : ∀ x y, x < width → y < height → P (f x y)) :
    ∀ row ∈ buildGrid width height f, ∀ c ∈ row, P c := by
  intro row hrow c hc
  simp only [buildGrid, List.mem_map, List.mem_range] at hrow
  obtain ⟨y, hy, rfl⟩ := hrow
  simp only [List.mem_map, List.mem_range] at hc
  obtain ⟨x, hx, rfl⟩ := hc
  exact h x y hx hy

/-- Indexing the built grid at row y and column x gives the cell computed
from (x, y). -/
theorem buildGrid_get (width height : ℕ) (f : ℕ → ℕ → Cell) {x y : ℕ}
    (hx : x < width) (hy : y < height) :
    ((buildGrid width height f)[y]?.bind fun row => row[x]?) = some (f x y) := by
  simp [buildGrid, List.getElem?_map, List.getElem?_range, hx, hy]

/-- The built grid has exactly height rows of width cells each. -/
theorem buildGrid_dims (width height : ℕ) (f : ℕ → ℕ → Cell) :
    (buildGrid width height f).length = height ∧
      ∀ row ∈ buildGrid width height f, row.length = width := by
  constructor
  · simp [buildGrid]
  · intro row hrow
    simp only [buildGrid, List.mem_map, List.mem_range] at hrow
    obtain ⟨y, hy, rfl⟩ := hrow
    simp

/-- The JS real remainder of a nonnegative operand by a positive modulus
lies in [0, modulus). -/
theorem jsFmod_bounds_of_nonneg {x y : ℝ} (hx : 0 ≤ x) (hy : 0 < y) :
    0 ≤ jsFmod x y ∧ jsFmod x y < y := by
  have hxy : 0 ≤ x / y := div_nonneg hx (le_of_lt hy)
  unfold jsFmod jsTrunc
  rw [if_pos hxy]
  constructor
  · have h1 : (⌊x / y⌋ : ℝ) ≤ x / y := Int.floor_le _
    have h2 : y * (⌊x / y⌋ : ℝ) ≤ y * (x / y) := by
      exact mul_le_mul_of_nonneg_left h1 (le_of_lt hy)
    rw [mul_div_cancel₀ x (ne_of_gt hy)] at h2
    linarith
  · have h1 : x / y < (⌊x / y⌋ : ℝ) + 1 := Int.lt_floor_add_one _
    have h2 : y * (x / y) < y * ((⌊x / y⌋ : ℝ) + 1) := by
      exact mul_lt_mul_of_pos_left h1 hy
    rw [mul_div_cancel₀ x (ne_of_gt hy)] at h2
    nlinarith

/-- The JS real remainder of a negative operand by a positive modulus lies
in (-modulus, 0]. -/
theorem jsFmod_bounds_of_neg {x y : ℝ} (hx : x < 0) (hy : 0 < y) :
    jsFmod x y ≤ 0 ∧ -y < jsFmod x y := by
  have hxy : x / y < 0 := div_neg_of_neg_of_pos hx hy
  unfold jsFmod jsTrunc
  rw [if_neg (not_le.mpr hxy)]
  constructor
  · have h1 : x / y ≤ (⌈x / y⌉ : ℝ) := Int.le_ceil _
    have h2 : y * (x / y) ≤ y * (⌈x / y⌉ : ℝ) := by
      exact mul_le_mul_of_nonneg_left h1 (le_of_lt hy)
    rw [mul_div_cancel₀ x (ne_of_gt hy)] at h2
    linarith
  · have h1 : (⌈x / y⌉ : ℝ) < x / y + 1 := Int.ceil_lt_add_one _
    have h2 : y * (⌈x / y⌉ : ℝ) < y * (x / y + 1) := by
      exact mul_lt_mul_of_pos_left h1 hy
    rw [mul_add, mul_div_cancel₀ x (ne_of_gt hy), mul_one] at h2
    linarith

/-- The angular fold of the polygon metric lands in [0, angleStep). -/
theorem polyFold_bounds (theta : ℝ) {angleStep : ℝ} (hs : 0 < angleStep) :
    0 ≤ polyFold theta angleStep ∧ polyFold theta angleStep < angleStep := by
  unfold polyFold
  rcases le_or_lt 0 theta with h | h
  · have h1 := jsFmod_bounds_of_nonneg h hs
    exact jsFmod_bounds_of_nonneg (by linarith [h1.1]) hs
  · have h1 := jsFmod_bounds_of_neg h hs
    exact jsFmod_bounds_of_nonneg (by linarith [h1.2]) hs

/-- The polygon distance is nonnegative whenever the angle step is in
(0, 2 pi / 3], which holds for every clamped side count. -/
theorem polygonsDistCore_nonneg (rx ry : ℝ) {angleStep : ℝ} (hs : 0 < angleStep)
    (hs2 : angleStep ≤ 2 * π / 3) : 0 ≤ polygonsDistCore rx ry angleStep := by
  unfold polygonsDistCore
  apply mul_nonneg (Real.sqrt_nonneg _)
  apply le_of_lt
  apply Real.cos_pos_of_mem_Ioo
  rw [Set.mem_Ioo]
  have hb := polyFold_bounds (jsAtan2 ry rx) hs
  have hpi := Real.pi_pos
  constructor
  · linarith [hb.1, hb.2]
  · linarith [hb.1, hb.2]

/-- The angle step of a clamped side count is positive and at most
2 pi / 3. -/
theorem angleStep_bounds (numSides : ℤ) :
    0 < 2 * π / ((max 3 numSides : ℤ) : ℝ) ∧
      2 * π / ((max 3 numSides : ℤ) : ℝ) ≤ 2 * π / 3 := by
  have h3 : (3 : ℝ) ≤ ((max 3 numSides : ℤ) : ℝ) := by
    exact_mod_cast le_max_left 3 numSides
  have hpi := Real.pi_pos
  constructor
  · apply div_pos (by linarith) (by linarith)
  · apply div_le_div_of_nonneg_left (by linarith) (by norm_num) h3

/-- The face index is one of 0, 1, 2. -/
theorem cubesFace_bounds (angle : ℝ) : 0 ≤ cubesFace angle ∧ cubesFace angle < 3 := by
  unfold cubesFace
  split_ifs <;> norm_num

/-- A zero thickness is falsy, so the per-cell level falls back to count
mode. -/
theorem jsLevel_some_zero (n : ℤ) (maxD d : ℝ) :
    jsLevel (some 0) n maxD d = jsLevel none n maxD d := by
  simp [jsLevel]

/-- A zero thickness is falsy, so the resolved count echoes the input. -/
theorem jsResolvedCount_some_zero (n : ℤ) (maxD : ℝ) :
    jsResolvedCount (some 0) n maxD = jsResolvedCount none n maxD := by
  simp [jsResolvedCount]

/-- C4: for every fractional hex coordinate pair handled by the
isometric-cubes classifier, the rounded cube coordinates produced by the
largest-error correction of hexRound satisfy rx + ry + rz = 0 exactly. -/
theorem c4_hexRound_sum_zero (q r : ℝ) :
    (hexRound q r).1 + (hexRound q r).2.1 + (hexRound q r).2.2 = 0 := by
  simp only [hexRound]
  split_ifs <;> simp <;> ring

/-- C7: every generate operation of the engine is a pure function of its
arguments: two invocations with identical inputs denote the same result,
grids included; there is no hidden state in the embedding. -/
theorem c7_determinism :
    (∀ w h n colors rX rY t tilt oX oY,
      generateConcentricSquares w h n colors rX rY t tilt oX oY =
        generateConcentricSquares w h n colors rX rY t tilt oX oY) ∧
    (∀ w h n colors rX rY t tilt oX oY,
      generateConcentricCircles w h n colors rX rY t tilt oX oY =
        generateConcentricCircles w h n colors rX rY t tilt oX oY) ∧
    (∀ w h s n colors rX rY t tilt oX oY,
      generateConcentricPolygons w h s n colors rX rY t tilt oX oY =
        generateConcentricPolygons w h s n colors rX rY t tilt oX oY) ∧
    (∀ w h sw colors tilt oX oY,
      generateStripes w h sw colors tilt oX oY =
        generateStripes w h sw colors tilt oX oY) ∧
    (∀ w h cs colors oX oY,
      generateIsometricCubes w h cs colors oX oY =
        generateIsometricCubes w h cs colors oX oY) :=
  ⟨fun _ _ _ _ _ _ _ _ _ _ => rfl, fun _ _ _ _ _ _ _ _ _ _ => rfl,
    fun _ _ _ _ _ _ _ _ _ _ _ => rfl, fun _ _ _ _ _ _ _ => rfl,
    fun _ _ _ _ _ _ => rfl⟩

/-- C2 (amended): the engine performs no input validation at all.  Every
invocation, including one with an empty palette or nonpositive ratios,
runs to completion and returns a complete height-by-width grid; no
InvalidConfiguration error exists anywhere in the code. -/
theorem c2_full_grid_always :
    (∀ w h n colors rX rY t tilt oX oY,
      (generateConcentricSquares w h n colors rX rY t tilt oX oY).grid.length = h ∧
      ∀ row ∈ (generateConcentricSquares w h n colors rX rY t tilt oX oY).grid,
        row.length = w) ∧
    (∀ w h n colors rX rY t tilt oX oY,
      (generateConcentricCircles w h n colors rX rY t tilt oX oY).grid.length = h ∧
      ∀ row ∈ (generateConcentricCircles w h n colors rX rY t tilt oX oY).grid,
        row.length = w) ∧
    (∀ w h s n colors rX rY t tilt oX oY,
      (generateConcentricPolygons w h s n colors rX rY t tilt oX oY).grid.length = h ∧
      ∀ row ∈ (generateConcentricPolygons w h s n colors rX rY t tilt oX oY).grid,
        row.length = w) ∧
    (∀ w h sw colors tilt oX oY,
      (generateStripes w h sw colors tilt oX oY).grid.length = h ∧
      ∀ row ∈ (generateStripes w h sw colors tilt oX oY).grid, row.length = w) ∧
    (∀ w h cs colors oX oY,
      (generateIsometricCubes w h cs colors oX oY).grid.length = h ∧
      ∀ row ∈ (generateIsometricCubes w h cs colors oX oY).grid, row.length = w) :=
  ⟨fun w h _ _ _ _ _ _ _ _ => buildGrid_dims w h _,
    fun w h _ _ _ _ _ _ _ _ => buildGrid_dims w h _,
    fun w h _ _ _ _ _ _ _ _ _ => buildGrid_dims w h _,
    fun w h _ _ _ _ _ => buildGrid_dims w h _,
    fun w h _ _ _ _ => buildGrid_dims w h _⟩

/-- C2 (counterexample): a configuration with an empty colors list and
ratioX = 0 is not rejected: generateConcentricSquares still produces a
complete 2-by-2 grid of cells, so no InvalidConfiguration failure is
reported before cells are computed. -/
theorem c2_counterexample :
    (generateConcentricSquares 2 2 1 [] 0 1 none 0 0 0).grid.length = 2 ∧
      ∀ row ∈ (generateConcentricSquares 2 2 1 [] 0 1 none 0 0 0).grid,
        row.length = 2 :=
  buildGrid_dims 2 2 _

/-- C10: the thickness branch is taken exactly when layerThickness is JS
truthy; a zero thickness (like a null one) is falsy, so the generator
silently falls back to count-mode classification and the input layer count,
and the division by layerThickness never runs with a zero divisor.  Grids
and resolved counts with layerThickness = 0 coincide with the null case. -/
theorem c10_zero_thickness_falls_back :
    (∀ w h n colors rX rY tilt oX oY,
      (generateConcentricSquares w h n colors rX rY (some 0) tilt oX oY).grid =
        (generateConcentricSquares w h n colors rX rY none tilt oX oY).grid ∧
      (generateConcentricSquares w h n colors rX rY (some 0) tilt oX oY).numSquares =
        (generateConcentricSquares w h n colors rX rY none tilt oX oY).numSquares) ∧
    (∀ w h n colors rX rY tilt oX oY,
      (generateConcentricCircles w h n colors rX rY (some 0) tilt oX oY).grid =
        (generateConcentricCircles w h n colors rX rY none tilt oX oY).grid ∧
      (generateConcentricCircles w h n colors rX rY (some 0) tilt oX oY).numLayers =
        (generateConcentricCircles w h n colors rX rY none tilt oX oY).numLayers) ∧
    (∀ w h s n colors rX rY tilt oX oY,
      (generateConcentricPolygons w h s n colors rX rY (some 0) tilt oX oY).grid =
        (generateConcentricPolygons w h s n colors rX rY none tilt oX oY).grid ∧
      (generateConcentricPolygons w h s n colors rX rY (some 0) tilt oX oY).numLayers =
        (generateConcentricPolygons w h s n colors rX rY none tilt oX oY).numLayers) := by
  refine ⟨fun w h n colors rX rY tilt oX oY => ?_,
    fun w h n colors rX rY tilt oX oY => ?_,
    fun w h s n colors rX rY tilt oX oY => ?_⟩ <;>
    constructor <;>
    simp only [generateConcentricSquares, generateConcentricCircles,
      generateConcentricPolygons, jsLevel_some_zero, jsResolvedCount_some_zero]

/-- C1 (amended): with a nonempty palette, positive ratios and a valid
sizing mode, every stored cell level of the rectangles, circles, polygons
and stripes generators lies in [0, colors.length); for isometric cubes the
stored level is always a face index in [0, 3), which exceeds the palette
range whenever fewer than three colors are supplied. -/
theorem c1_level_ranges :
    (∀ w h n colors rX rY t tilt oX oY, 1 ≤ colors.length → 0 < rX → 0 < rY →
      (∀ v : ℝ, t = some v → 0 < v) → (t = none → 1 ≤ n) →
      ∀ row ∈ (generateConcentricSquares w h n colors rX rY t tilt oX oY).grid,
        ∀ c ∈ row, 0 ≤ c.level ∧ c.level < (colors.length : ℤ)) ∧
    (∀ w h n colors rX rY t tilt oX oY, 1 ≤ colors.length → 0 < rX → 0 < rY →
      (∀ v : ℝ, t = some v → 0 < v) → (t = none → 1 ≤ n) →
      ∀ row ∈ (generateConcentricCircles w h n colors rX rY t tilt oX oY).grid,
        ∀ c ∈ row, 0 ≤ c.level ∧ c.level < (colors.length : ℤ)) ∧
    (∀ w h s n colors rX rY t tilt oX oY, 1 ≤ colors.length → 0 < rX → 0 < rY →
      (∀ v : ℝ, t = some v → 0 < v) → (t = none → 1 ≤ n) →
      ∀ row ∈ (generateConcentricPolygons w h s n colors rX rY t tilt oX oY).grid,
        ∀ c ∈ row, 0 ≤ c.level ∧ c.level < (colors.length : ℤ)) ∧
    (∀ w h sw colors tilt oX oY, 1 ≤ colors.length → (0:ℝ) < sw →
      ∀ row ∈ (generateStripes w h sw colors tilt oX oY).grid,
        ∀ c ∈ row, 0 ≤ c.level ∧ c.level < (colors.length : ℤ)) ∧
    (∀ w h cs colors oX oY,
      ∀ row ∈ (generateIsometricCubes w h cs colors oX oY).grid,
        ∀ c ∈ row, 0 ≤ c.level ∧ c.level < 3) := by
  refine ⟨?_, ?_, ?_, ?_, ?_⟩
  · intro w h n colors rX rY t tilt oX oY hc hx hy hv hn
    apply buildGrid_forall
    intro x y _ _
    apply mkCell_level_bounds colors _ hc
    exact jsLevel_nonneg (squaresMaxDistance_nonneg w h rX rY tilt oX oY)
      (squaresDist_nonneg _ _ _ _ hx hy _) hv hn
  · intro w h n colors rX rY t tilt oX oY hc hx hy hv hn
    apply buildGrid_forall
    intro x y _ _
    apply mkCell_level_bounds colors _ hc
    exact jsLevel_nonneg (circlesMaxDistance_nonneg w h rX rY tilt oX oY)
      (circlesCellDist_nonneg _ _ _ _ _ _ _) hv hn
  · intro w h s n colors rX rY t tilt oX oY hc hx hy hv hn
    apply buildGrid_forall
    intro x y _ _
    apply mkCell_level_bounds colors _ hc
    have hs := angleStep_bounds s
    exact jsLevel_nonneg (polygonsMaxDistance_nonneg w h _ rX rY tilt oX oY)
      (polygonsDistCore_nonneg _ _ hs.1 hs.2) hv hn
  · intro w h sw colors tilt oX oY hc hsw
    apply buildGrid_forall
    intro x y _ _
    have hcz : (0 : ℤ) < (colors.length : ℤ) := by exact_mod_cast hc
    exact stripesIndex_bounds (colors.length : ℤ) sw _ hcz
  · intro w h cs colors oX oY
    apply buildGrid_forall
    intro x y _ _
    exact cubesFace_bounds _

/-- C1 (counterexample): generateIsometricCubes on a 1-by-1 grid with the
valid single-color palette ["a"] stores level 1 in its only cell, and 1 is
not below colors.length = 1, so the coverage claim fails for the
isometric-cubes family. -/
theorem c1_counterexample :
    (generateIsometricCubes 1 1 2 ["a"] 0 0).grid = [[⟨some "a", 1⟩]] ∧
      ¬ ((1 : ℤ) < ((["a"] : List String).length : ℤ)) := by
  constructor
  · have h1 : List.range 1 = [0] := rfl
    have hc0 : centerCoord 1 0 = 0 := by norm_num [centerCoord]
    have hmax : max (2 : ℝ) 2 = 2 := max_self 2
    have hround : hexRound 0 0 = (0, 0, 0) := by norm_num [hexRound]
    have hatan : jsAtan2 0 0 = 0 := by norm_num [jsAtan2]
    have hlevel : cubesCellLevel 0 0 2 0 0 = 1 := by
      norm_num [cubesCellLevel, hround, hatan, cubesFace]
    simp [generateIsometricCubes, buildGrid, h1, hc0, hmax, hlevel, colorMapGet]
  · norm_num

/-- C1 (witness): the amended coverage theorem applied at concrete valid
1-by-1 configurations of all five shape families, specialized to the single
cell of each grid. -/
theorem c1_witness :
    (0 ≤ (mkCell ["a"] (jsLevel none 1 (squaresMaxDistance 1 1 1 1 0 0 0)
        (squaresDistOf 1 1 1 1 0 0 0 (((0 : ℕ) : ℝ), ((0 : ℕ) : ℝ))))).level ∧
      (mkCell ["a"] (jsLevel none 1 (squaresMaxDistance 1 1 1 1 0 0 0)
        (squaresDistOf 1 1 1 1 0 0 0 (((0 : ℕ) : ℝ), ((0 : ℕ) : ℝ))))).level <
        ((["a"] : List String).length : ℤ)) ∧
    (0 ≤ (mkCell ["a"] (jsLevel none 1 (circlesMaxDistance 1 1 1 1 0 0 0)
        (circlesCellDistOf 1 1 1 1 0 0 0 (((0 : ℕ) : ℝ), ((0 : ℕ) : ℝ))))).level ∧
      (mkCell ["a"] (jsLevel none 1 (circlesMaxDistance 1 1 1 1 0 0 0)
        (circlesCellDistOf 1 1 1 1 0 0 0 (((0 : ℕ) : ℝ), ((0 : ℕ) : ℝ))))).level <
        ((["a"] : List String).length : ℤ)) ∧
    (0 ≤ (mkCell ["a"] (jsLevel none 1
        (polygonsMaxDistance 1 1 (2 * π / ((max 3 3 : ℤ) : ℝ)) 1 1 0 0 0)
        (polygonsCellDistOf 1 1 (2 * π / ((max 3 3 : ℤ) : ℝ)) 1 1 0 0 0
          (((0 : ℕ) : ℝ), ((0 : ℕ) : ℝ))))).level ∧
      (mkCell ["a"] (jsLevel none 1
        (polygonsMaxDistance 1 1 (2 * π / ((max 3 3 : ℤ) : ℝ)) 1 1 0 0 0)
        (polygonsCellDistOf 1 1 (2 * π / ((max 3 3 : ℤ) : ℝ)) 1 1 0 0 0
          (((0 : ℕ) : ℝ), ((0 : ℕ) : ℝ))))).level < ((["a"] : List String).length : ℤ)) ∧
    (0 ≤ (Cell.mk (listGet ["a"] (stripesIndex ((["a"] : List String).length : ℤ) 1
        (stripesRxOf 1 1 0 0 0 (((0 : ℕ) : ℝ), ((0 : ℕ) : ℝ)))))
        (stripesIndex ((["a"] : List String).length : ℤ) 1
          (stripesRxOf 1 1 0 0 0 (((0 : ℕ) : ℝ), ((0 : ℕ) : ℝ))))).level ∧
      (Cell.mk (listGet ["a"] (stripesIndex ((["a"] : List String).length : ℤ) 1
        (stripesRxOf 1 1 0 0 0 (((0 : ℕ) : ℝ), ((0 : ℕ) : ℝ)))))
        (stripesIndex ((["a"] : List String).length : ℤ) 1
          (stripesRxOf 1 1 0 0 0 (((0 : ℕ) : ℝ), ((0 : ℕ) : ℝ))))).level <
        ((["a"] : List String).length : ℤ)) ∧
    (0 ≤ (Cell.mk (colorMapGet ["a"]
        (cubesCellLevel (centerCoord 1 0) (centerCoord 1 0) (max 2 2) 0 0).toNat)
        (cubesCellLevel (centerCoord 1 0) (centerCoord 1 0) (max 2 2) 0 0)).level ∧
      (Cell.mk (colorMapGet ["a"]
        (cubesCellLevel (centerCoord 1 0) (centerCoord 1 0) (max 2 2) 0 0).toNat)
        (cubesCellLevel (centerCoord 1 0) (centerCoord 1 0) (max 2 2) 0 0)).level < 3) :=
  ⟨c1_level_ranges.1 1 1 1 ["a"] 1 1 none 0 0 0 (by norm_num) (by norm_num) (by norm_num)
      (by intro v hv; simp at hv) (fun _ => le_refl 1) _
      (List.mem_singleton.mpr rfl) _ (List.mem_singleton.mpr rfl),
    c1_level_ranges.2.1 1 1 1 ["a"] 1 1 none 0 0 0 (by norm_num) (by norm_num) (by norm_num)
      (by intro v hv; simp at hv) (fun _ => le_refl 1) _
      (List.mem_singleton.mpr rfl) _ (List.mem_singleton.mpr rfl),
    c1_level_ranges.2.2.1 1 1 3 1 ["a"] 1 1 none 0 0 0 (by norm_num) (by norm_num)
      (by norm_num) (by intro v hv; simp at hv) (fun _ => le_refl 1) _
      (List.mem_singleton.mpr rfl) _ (List.mem_singleton.mpr rfl),
    c1_level_ranges.2.2.2.1 1 1 1 ["a"] 0 0 0 (by norm_num) (by norm_num) _
      (List.mem_singleton.mpr rfl) _ (List.mem_singleton.mpr rfl),
    c1_level_ranges.2.2.2.2 1 1 2 ["a"] 0 0 _
      (List.mem_singleton.mpr rfl) _ (List.mem_singleton.mpr rfl)⟩

/-- Cosine of a zero tilt after the degree conversion. -/
theorem tilt0_cos : Real.cos ((0 : ℝ) * π / 180) = 1 := by norm_num

/-- Sine of a zero tilt after the degree conversion. -/
theorem tilt0_sin : Real.sin ((0 : ℝ) * π / 180) = 0 := by norm_num

/-- The epsilon constant is nonzero. -/
theorem eps_ne : eps ≠ 0 := by norm_num [eps]

/-- C3 (amended): a nonpositive layerCount in count mode is not clamped to
one layer: the min with layerCount - 1 drives every raw level to at most
layerCount - 1 < 0, so every stored cell level is the truncated remainder
of a negative number, lying in (-colors.length, 0], and no error is
raised. -/
theorem c3_no_clamp (w h : ℕ) (n : ℤ) (colors : List String) (rX rY tilt oX oY : ℝ)
    (hc : 1 ≤ colors.length) (hn : n ≤ 0) :
    ∀ row ∈ (generateConcentricSquares w h n colors rX rY none tilt oX oY).grid,
      ∀ c ∈ row, -(colors.length : ℤ) < c.level ∧ c.level ≤ 0 := by
  apply buildGrid_forall
  intro x y _ _
  have hlevel : jsLevel none n (squaresMaxDistance w h rX rY tilt oX oY)
      (squaresDistOf w h rX rY tilt oX oY ((x : ℝ), (y : ℝ))) < 0 := by
    simp only [jsLevel, countLevel]
    have h2 := min_le_right
      ⌊squaresDistOf w h rX rY tilt oX oY ((x : ℝ), (y : ℝ)) /
          jsOr1 (squaresMaxDistance w h rX rY tilt oX oY) * (n : ℝ)⌋ (n - 1)
    omega
  have hcz : (0 : ℤ) < (colors.length : ℤ) := by exact_mod_cast hc
  have hb := tmod_bounds_of_neg hlevel hcz
  exact ⟨hb.2, hb.1⟩

/-- C3 (counterexample): count mode with layerCount = 0 on a 1-by-1 grid
with two colors stores level -1 and an undefined color in the only cell:
nothing is clamped to one layer and the result is not a valid level. -/
theorem c3_counterexample :
    (generateConcentricSquares 1 1 0 ["a", "b"] 1 1 none 0 0 0).grid = [[⟨none, -1⟩]] := by
  have h1 : List.range 1 = [0] := rfl
  have hdist : squaresDistOf 1 1 1 1 0 0 0 (0 : ℝ × ℝ) = eps := by
    norm_num [squaresDistOf, squaresDist, centerCoord, tilt0_cos, tilt0_sin,
      Prod.fst_zero, Prod.snd_zero]
  have hmax0 : max 0 eps = eps := max_eq_right (by norm_num [eps])
  have hmaxD : squaresMaxDistance 1 1 1 1 0 0 0 = eps := by
    norm_num [squaresMaxDistance, cornersR, List.foldl, hdist, hmax0]
  have hlevel : jsLevel none 0 eps eps = -1 := by
    simp only [jsLevel, countLevel]
    norm_num
  have htmod : Int.tmod (-1) 2 = -1 := by decide
  have hcell : mkCell ["a", "b"] (-1) = ⟨none, -1⟩ := by
    simp [mkCell, listGet, htmod]
  simp [generateConcentricSquares, buildGrid, h1, hmaxD, hdist, hlevel, hcell]

/-- C3 (witness): the amended no-clamp theorem applied at the concrete
layerCount = 0 configuration, specialized to the single cell of the 1-by-1
grid. -/
theorem c3_witness :
    -(((["a", "b"] : List String).length : ℕ) : ℤ) <
      (mkCell ["a", "b"] (jsLevel none 0 (squaresMaxDistance 1 1 1 1 0 0 0)
        (squaresDistOf 1 1 1 1 0 0 0 (((0 : ℕ) : ℝ), ((0 : ℕ) : ℝ))))).level ∧
    (mkCell ["a", "b"] (jsLevel none 0 (squaresMaxDistance 1 1 1 1 0 0 0)
      (squaresDistOf 1 1 1 1 0 0 0 (((0 : ℕ) : ℝ), ((0 : ℕ) : ℝ))))).level ≤ 0 :=
  c3_no_clamp 1 1 0 ["a", "b"] 1 1 0 0 0 (by norm_num) (by norm_num)
    [mkCell ["a", "b"] (jsLevel none 0 (squaresMaxDistance 1 1 1 1 0 0 0)
      (squaresDistOf 1 1 1 1 0 0 0 (((0 : ℕ) : ℝ), ((0 : ℕ) : ℝ))))]
    (List.mem_singleton.mpr rfl) _ (List.mem_singleton.mpr rfl)

/-- A 360 degree tilt has the same cosine as a zero tilt. -/
theorem tilt360_cos : Real.cos ((360 : ℝ) * π / 180) = Real.cos ((0 : ℝ) * π / 180) := by
  have h1 : (360 : ℝ) * π / 180 = 2 * π := by ring
  have h2 : (0 : ℝ) * π / 180 = 0 := by ring
  rw [h1, h2, Real.cos_two_pi, Real.cos_zero]

/-- A 360 degree tilt has the same sine as a zero tilt. -/
theorem tilt360_sin : Real.sin ((360 : ℝ) * π / 180) = Real.sin ((0 : ℝ) * π / 180) := by
  have h1 : (360 : ℝ) * π / 180 = 2 * π := by ring
  have h2 : (0 : ℝ) * π / 180 = 0 := by ring
  rw [h1, h2, Real.sin_two_pi, Real.sin_zero]

/-- The squares distance is identical under tilt 360 and tilt 0. -/
theorem squaresDistOf_tilt360 (w h : ℕ) (rX rY oX oY : ℝ) :
    squaresDistOf w h rX rY 360 oX oY = squaresDistOf w h rX rY 0 oX oY := by
  funext p
  unfold squaresDistOf
  rw [tilt360_cos, tilt360_sin]

/-- The squares maximum distance is identical under tilt 360 and tilt 0. -/
theorem squaresMaxDistance_tilt360 (w h : ℕ) (rX rY oX oY : ℝ) :
    squaresMaxDistance w h rX rY 360 oX oY = squaresMaxDistance w h rX rY 0 oX oY := by
  unfold squaresMaxDistance
  rw [squaresDistOf_tilt360]

/-- The circles cell distance is identical under tilt 360 and tilt 0. -/
theorem circlesCellDistOf_tilt360 (w h : ℕ) (rX rY oX oY : ℝ) :
    circlesCellDistOf w h rX rY 360 oX oY = circlesCellDistOf w h rX rY 0 oX oY := by
  funext p
  unfold circlesCellDistOf
  rw [tilt360_cos, tilt360_sin]

/-- The circles corner distance is identical under tilt 360 and tilt 0. -/
theorem circlesCornerDistOf_tilt360 (w h : ℕ) (rX rY oX oY : ℝ) :
    circlesCornerDistOf w h rX rY 360 oX oY = circlesCornerDistOf w h rX rY 0 oX oY := by
  funext p
  unfold circlesCornerDistOf
  rw [tilt360_cos, tilt360_sin]

/-- The circles maximum distance is identical under tilt 360 and tilt 0. -/
theorem circlesMaxDistance_tilt360 (w h : ℕ) (rX rY oX oY : ℝ) :
    circlesMaxDistance w h rX rY 360 oX oY = circlesMaxDistance w h rX rY 0 oX oY := by
  unfold circlesMaxDistance
  rw [circlesCornerDistOf_tilt360]

/-- The polygons cell distance is identical under tilt 360 and tilt 0. -/
theorem polygonsCellDistOf_tilt360 (w h : ℕ) (s rX rY oX oY : ℝ) :
    polygonsCellDistOf w h s rX rY 360 oX oY = polygonsCellDistOf w h s rX rY 0 oX oY := by
  funext p
  unfold polygonsCellDistOf
  rw [tilt360_cos, tilt360_sin]

/-- The polygons corner distance is identical under tilt 360 and tilt 0. -/
theorem polygonsCornerDistOf_tilt360 (w h : ℕ) (s rX rY oX oY : ℝ) :
    polygonsCornerDistOf w h s rX rY 360 oX oY = polygonsCornerDistOf w h s rX rY 0 oX oY := by
  funext p
  unfold polygonsCornerDistOf
  rw [tilt360_cos, tilt360_sin]

/-- The polygons maximum distance is identical under tilt 360 and tilt 0. -/
theorem polygonsMaxDistance_tilt360 (w h : ℕ) (s rX rY oX oY : ℝ) :
    polygonsMaxDistance w h s rX rY 360 oX oY = polygonsMaxDistance w h s rX rY 0 oX oY := by
  unfold polygonsMaxDistance
  rw [polygonsCornerDistOf_tilt360]

/-- The stripes normal coordinate is identical under tilt 360 and tilt 0. -/
theorem stripesRxOf_tilt360 (w h : ℕ) (oX oY : ℝ) :
    stripesRxOf w h 360 oX oY = stripesRxOf w h 0 oX oY := by
  funext p
  unfold stripesRxOf
  rw [tilt360_cos, tilt360_sin]

/-- C9: for every configuration of each tilt-supporting shape family
(rectangles, circles, polygons, stripes), generating with tilt 0 yields the
same grid as generating with tilt 360, since the tilt only enters through
its sine and cosine and a full turn is the identity rotation. -/
theorem c9_tilt_identity :
    (∀ w h n colors rX rY t oX oY,
      (generateConcentricSquares w h n colors rX rY t 0 oX oY).grid =
        (generateConcentricSquares w h n colors rX rY t 360 oX oY).grid) ∧
    (∀ w h n colors rX rY t oX oY,
      (generateConcentricCircles w h n colors rX rY t 0 oX oY).grid =
        (generateConcentricCircles w h n colors rX rY t 360 oX oY).grid) ∧
    (∀ w h s n colors rX rY t oX oY,
      (generateConcentricPolygons w h s n colors rX rY t 0 oX oY).grid =
        (generateConcentricPolygons w h s n colors rX rY t 360 oX oY).grid) ∧
    (∀ w h sw colors oX oY,
      (generateStripes w h sw colors 0 oX oY).grid =
        (generateStripes w h sw colors 360 oX oY).grid) := by
  refine ⟨fun w h n colors rX rY t oX oY => ?_, fun w h n colors rX rY t oX oY => ?_,
    fun w h s n colors rX rY t oX oY => ?_, fun w h sw colors oX oY => ?_⟩
  · simp only [generateConcentricSquares, squaresMaxDistance_tilt360, squaresDistOf_tilt360]
  · simp only [generateConcentricCircles, circlesMaxDistance_tilt360, circlesCellDistOf_tilt360]
  · simp only [generateConcentricPolygons, polygonsMaxDistance_tilt360,
      polygonsCellDistOf_tilt360]
  · simp only [generateStripes, stripesRxOf_tilt360]

/-- C6: in thickness mode (a truthy, i.e. nonzero, layerThickness) the
resolved layer count returned by the rectangles, circles and polygons
generators equals max(1, ceil((maxDistance + thickness/2) / thickness)),
where maxDistance is the corner maximum recomputed by the BoundsEstimator
even though thickness-mode cell levels do not use it. -/
theorem c6_resolved_count :
    (∀ (w h : ℕ) (n : ℤ) (colors : List String) (rX rY v tilt oX oY : ℝ), v ≠ 0 →
      (generateConcentricSquares w h n colors rX rY (some v) tilt oX oY).numSquares =
        max 1 ⌈(squaresMaxDistance w h rX rY tilt oX oY + v / 2) / v⌉) ∧
    (∀ (w h : ℕ) (n : ℤ) (colors : List String) (rX rY v tilt oX oY : ℝ), v ≠ 0 →
      (generateConcentricCircles w h n colors rX rY (some v) tilt oX oY).numLayers =
        max 1 ⌈(circlesMaxDistance w h rX rY tilt oX oY + v / 2) / v⌉) ∧
    (∀ (w h : ℕ) (s n : ℤ) (colors : List String) (rX rY v tilt oX oY : ℝ), v ≠ 0 →
      (generateConcentricPolygons w h s n colors rX rY (some v) tilt oX oY).numLayers =
        max 1 ⌈(polygonsMaxDistance w h (2 * π / ((max 3 s : ℤ) : ℝ)) rX rY tilt oX oY
          + v / 2) / v⌉) := by
  refine ⟨fun w h n colors rX rY v tilt oX oY hv => ?_,
    fun w h n colors rX rY v tilt oX oY hv => ?_,
    fun w h s n colors rX rY v tilt oX oY hv => ?_⟩
  · simp only [generateConcentricSquares, jsResolvedCount]
    rw [if_neg hv]
  · simp only [generateConcentricCircles, jsResolvedCount]
    rw [if_neg hv]
  · simp only [generateConcentricPolygons, jsResolvedCount]
    rw [if_neg hv]

/-- The circles maximum distance of a 51-by-1 untilted unit-ratio grid is
exactly 25: both corner columns are 25 cells from the center. -/
theorem circlesMaxDistance_51 : circlesMaxDistance 51 1 1 1 0 0 0 = 25 := by
  have hsqrt : Real.sqrt 625 = 25 := by
    rw [show (625 : ℝ) = 25 ^ 2 by norm_num, Real.sqrt_sq (by norm_num : (0:ℝ) ≤ 25)]
  have hd0 : circlesCornerDistOf 51 1 1 1 0 0 0 (0 : ℝ × ℝ) = 25 := by
    norm_num [circlesCornerDistOf, circlesCornerDist, centerCoord, tilt0_cos, tilt0_sin,
      Prod.fst_zero, Prod.snd_zero, hsqrt]
  have hd1 : circlesCornerDistOf 51 1 1 1 0 0 0 (50, 0) = 25 := by
    norm_num [circlesCornerDistOf, circlesCornerDist, centerCoord, tilt0_cos, tilt0_sin,
      hsqrt]
  have hmax0 : max (0 : ℝ) 25 = 25 := max_eq_right (by norm_num)
  have hmax1 : max (25 : ℝ) 25 = 25 := max_self 25
  norm_num [circlesMaxDistance, cornersR, List.foldl, hd0, hd1, hmax0, hmax1]

/-- C6 (witness): with thickness 10 and the concrete 51-by-1 circles
configuration whose maxDistance is exactly 25, the resolved layer count is
ceil((25 + 5) / 10) = 3. -/
theorem c6_witness :
    circlesMaxDistance 51 1 1 1 0 0 0 = 25 ∧
      (generateConcentricCircles 51 1 5 ["a"] 1 1 (some 10) 0 0 0).numLayers = 3 := by
  refine ⟨circlesMaxDistance_51, ?_⟩
  rw [c6_resolved_count.2.1 51 1 5 ["a"] 1 1 10 0 0 0 (by norm_num), circlesMaxDistance_51]
  norm_num

/-- The epsilon constant is positive. -/
theorem eps_pos : (0 : ℝ) < eps := by norm_num [eps]

/-- The squares distance is strictly positive for a positive ratioX: the
epsilon nudge keeps even the center cell off zero. -/
theorem squaresDist_pos (cX cY cosT sinT : ℝ) {ratioX ratioY : ℝ} (hx : 0 < ratioX)
    (p : ℝ × ℝ) : 0 < squaresDist cX cY cosT sinT ratioX ratioY p := by
  unfold squaresDist
  apply lt_max_iff.mpr
  left
  apply div_pos _ hx
  have h := abs_nonneg ((p.1 - cX) * cosT + (p.2 - cY) * sinT)
  linarith [eps_pos]

/-- Evaluating the count-mode classifier exactly at the maximum distance
gives the top layer n - 1. -/
theorem countLevel_at_max (n : ℤ) {maxD : ℝ} (h : 0 < maxD) :
    countLevel n maxD maxD = n - 1 := by
  unfold countLevel jsOr1
  rw [if_neg (ne_of_gt h), div_self (ne_of_gt h), one_mul, Int.floor_intCast]
  omega

/-- C5 (amended): for rectangles in count mode, the corner cell whose
corner attains the BoundsEstimator maximum has raw level layerCount - 1,
stored as (layerCount - 1) mod colors.length by the color-cycling
assignment; the stored level equals colors.length - 1 only when that
remainder happens to be colors.length - 1. -/
theorem c5_corner_top_level (w h : ℕ) (n : ℤ) (colors : List String)
    (rX rY tilt oX oY : ℝ) (cx cy : ℕ)
    (hw : cx < w) (hh : cy < h)
    (hcorner : (((cx : ℕ) : ℝ), ((cy : ℕ) : ℝ)) ∈ cornersR w h)
    (hn : 1 ≤ n) (hc : 1 ≤ colors.length) (hx : 0 < rX) (hy : 0 < rY)
    (hmax : squaresDistOf w h rX rY tilt oX oY ((cx : ℝ), (cy : ℝ)) =
      squaresMaxDistance w h rX rY tilt oX oY) :
    ((generateConcentricSquares w h n colors rX rY none tilt oX oY).grid[cy]?.bind
      fun row => row[cx]?) = some (mkCell colors (n - 1)) := by
  have hpos : 0 < squaresMaxDistance w h rX rY tilt oX oY := by
    rw [← hmax]
    exact squaresDist_pos _ _ _ _ hx _
  have hgrid : (generateConcentricSquares w h n colors rX rY none tilt oX oY).grid =
      buildGrid w h (fun x y =>
        mkCell colors (jsLevel none n (squaresMaxDistance w h rX rY tilt oX oY)
          (squaresDistOf w h rX rY tilt oX oY ((x : ℝ), (y : ℝ))))) := rfl
  rw [hgrid, buildGrid_get w h _ hw hh, hmax]
  simp only [jsLevel]
  rw [countLevel_at_max n hpos]

/-- The squares distance of an untilted, unit-ratio, centered 3-by-3 grid
is the Chebyshev distance (plus the epsilon nudge) from the center (1,1). -/
theorem sq3_dist (p : ℝ × ℝ) :
    squaresDistOf 3 3 1 1 0 0 0 p = max (|p.1 - 1| + eps) (|p.2 - 1| + eps) := by
  unfold squaresDistOf squaresDist centerCoord
  rw [tilt0_cos, tilt0_sin]
  norm_num

/-- The squares maximum distance of the 3-by-3 grid is 1 + eps. -/
theorem sq3_maxD : squaresMaxDistance 3 3 1 1 0 0 0 = 1 + eps := by
  norm_num [squaresMaxDistance, cornersR, List.foldl, sq3_dist, max_def, eps]

/-- C5 (witness): the amended corner-maximality theorem applied to the
symmetric 3-by-3 count-mode configuration at corner (0,0). -/
theorem c5_witness :
    ((generateConcentricSquares 3 3 2 ["a", "b"] 1 1 none 0 0 0).grid[0]?.bind
      fun row => row[0]?) = some (mkCell ["a", "b"] (2 - 1)) :=
  c5_corner_top_level 3 3 2 ["a", "b"] 1 1 0 0 0 0 0 (by norm_num) (by norm_num)
    (by norm_num [cornersR]) (by norm_num) (by norm_num) (by norm_num) (by norm_num)
    (by rw [sq3_dist, sq3_maxD]; norm_num [eps, max_def])

/-- The squares distance of an untilted, unit-ratio 3-by-1 grid centered at
(1, 0). -/
theorem sq31_dist (p : ℝ × ℝ) :
    squaresDistOf 3 1 1 1 0 0 0 p = max (|p.1 - 1| + eps) (|p.2| + eps) := by
  unfold squaresDistOf squaresDist centerCoord
  rw [tilt0_cos, tilt0_sin]
  norm_num

/-- The squares maximum distance of the 3-by-1 grid is 1 + eps. -/
theorem sq31_maxD : squaresMaxDistance 3 1 1 1 0 0 0 = 1 + eps := by
  norm_num [squaresMaxDistance, cornersR, List.foldl, sq31_dist, max_def, eps]

/-- C5 (counterexample): with 5 layers but only 3 colors, the rectangles
corner cell (0,0) of a 3-by-1 grid stores level (5-1) mod 3 = 1, not
colors.length - 1 = 2; and on a 1-by-1 circles grid with 2 layers and 2
colors the only cell (which is the cell closest to every corner) stores
level 0, not layerCount - 1 = 1.  Both readings of the claim fail. -/
theorem c5_counterexample :
    ((generateConcentricSquares 3 1 5 ["a", "b", "c"] 1 1 none 0 0 0).grid[0]?.bind
      fun row => row[0]?) = some ⟨some "b", 1⟩ ∧
    ((generateConcentricCircles 1 1 2 ["a", "b"] 1 1 none 0 0 0).grid[0]?.bind
      fun row => row[0]?) = some ⟨some "a", 0⟩ := by
  constructor
  · have hgrid : (generateConcentricSquares 3 1 5 ["a", "b", "c"] 1 1 none 0 0 0).grid =
        buildGrid 3 1 (fun x y => mkCell ["a", "b", "c"]
          (jsLevel none 5 (squaresMaxDistance 3 1 1 1 0 0 0)
            (squaresDistOf 3 1 1 1 0 0 0 ((x : ℝ), (y : ℝ))))) := rfl
    rw [hgrid, buildGrid_get 3 1 _ (by norm_num) (by norm_num)]
    have hd : squaresDistOf 3 1 1 1 0 0 0 (((0 : ℕ) : ℝ), ((0 : ℕ) : ℝ)) = 1 + eps := by
      rw [sq31_dist]
      norm_num [eps, max_def]
    rw [hd, sq31_maxD]
    simp only [jsLevel]
    rw [countLevel_at_max 5 (by norm_num [eps])]
    have ht : Int.tmod 4 3 = 1 := by decide
    norm_num [mkCell, listGet, ht]
  · have hgrid : (generateConcentricCircles 1 1 2 ["a", "b"] 1 1 none 0 0 0).grid =
        buildGrid 1 1 (fun x y => mkCell ["a", "b"]
          (jsLevel none 2 (circlesMaxDistance 1 1 1 1 0 0 0)
            (circlesCellDistOf 1 1 1 1 0 0 0 ((x : ℝ), (y : ℝ))))) := rfl
    rw [hgrid, buildGrid_get 1 1 _ (by norm_num) (by norm_num)]
    have hc0 : circlesCornerDistOf 1 1 1 1 0 0 0 (0 : ℝ × ℝ) = 0 := by
      norm_num [circlesCornerDistOf, circlesCornerDist, centerCoord, tilt0_cos, tilt0_sin,
        Prod.fst_zero, Prod.snd_zero]
    have hmaxD0 : circlesMaxDistance 1 1 1 1 0 0 0 = 0 := by
      norm_num [circlesMaxDistance, cornersR, List.foldl, hc0]
    have hd : circlesCellDistOf 1 1 1 1 0 0 0 (((0 : ℕ) : ℝ), ((0 : ℕ) : ℝ)) =
        Real.sqrt (eps * eps + eps * eps) := by
      norm_num [circlesCellDistOf, circlesCellDist, centerCoord, tilt0_cos, tilt0_sin]
    rw [hd, hmaxD0]
    have hlev : countLevel 2 0 (Real.sqrt (eps * eps + eps * eps)) = 0 := by
      unfold countLevel jsOr1
      rw [if_pos rfl, div_one]
      have h0 : (0 : ℝ) ≤ Real.sqrt (eps * eps + eps * eps) := Real.sqrt_nonneg _
      have hs := (Real.sqrt_lt' (by norm_num : (0 : ℝ) < 1 / 4)).mpr
        (by norm_num [eps] : eps * eps + eps * eps < (1 / 4) ^ 2)
      have hfl : ⌊Real.sqrt (eps * eps + eps * eps) * ((2 : ℤ) : ℝ)⌋ = 0 := by
        rw [Int.floor_eq_zero_iff, Set.mem_Ico]
        constructor
        · positivity
        · push_cast
          nlinarith
      rw [hfl]
      omega
    simp only [jsLevel]
    rw [hlev]
    have ht : Int.tmod 0 2 = 0 := by decide
    norm_num [mkCell, listGet, ht]

/-- A ring cell of the 3-by-3 two-layer scenario: classified at the
maximum distance, stored level 1, color blue. -/
theorem c8_ring_cell :
    mkCell ["red", "blue"] (jsLevel none 2 (1 + eps) (1 + eps)) = ⟨some "blue", 1⟩ := by
  simp only [jsLevel]
  rw [countLevel_at_max 2 (by norm_num [eps])]
  have ht1 : Int.tmod 1 2 = 1 := by decide
  norm_num [mkCell, listGet, ht1]

/-- The center cell of the 3-by-3 two-layer scenario: distance eps,
level 0, color red. -/
theorem c8_center_cell :
    mkCell ["red", "blue"] (jsLevel none 2 (1 + eps) eps) = ⟨some "red", 0⟩ := by
  have hlev : countLevel 2 (1 + eps) eps = 0 := by
    unfold countLevel jsOr1
    rw [if_neg (by norm_num [eps] : (1 : ℝ) + eps ≠ 0)]
    have hfl : ⌊eps / (1 + eps) * ((2 : ℤ) : ℝ)⌋ = 0 := by
      rw [Int.floor_eq_zero_iff, Set.mem_Ico]
      constructor
      · apply mul_nonneg (div_nonneg eps_pos.le (by norm_num [eps])) (by norm_num)
      · push_cast
        rw [div_mul_eq_mul_div, div_lt_one (by norm_num [eps])]
        norm_num [eps]
    rw [hfl]
    omega
  simp only [jsLevel]
  rw [hlev]
  have ht0 : Int.tmod 0 2 = 0 := by decide
  norm_num [mkCell, listGet, ht0]

/-- C8: generate(rectangles) on the 3-by-3 grid with two layers, palette
[red, blue], unit ratios, no tilt and no offset assigns level 0 / red to
the center cell (1,1) and level 1 / blue to all four corners and all four
edge midpoints. -/
theorem c8_concrete_rectangles :
    (generateConcentricSquares 3 3 2 ["red", "blue"] 1 1 none 0 0 0).grid =
      [[⟨some "blue", 1⟩, ⟨some "blue", 1⟩, ⟨some "blue", 1⟩],
       [⟨some "blue", 1⟩, ⟨some "red", 0⟩, ⟨some "blue", 1⟩],
       [⟨some "blue", 1⟩, ⟨some "blue", 1⟩, ⟨some "blue", 1⟩]] := by
  have hrange : List.range 3 = [0, 1, 2] := rfl
  have hm1 : max eps (1 + eps) = 1 + eps := max_eq_right (by norm_num [eps])
  have hm2 : max (1 + eps) eps = 1 + eps := max_eq_left (by norm_num [eps])
  simp only [generateConcentricSquares, buildGrid, hrange, List.map_cons, List.map_nil,
    sq3_maxD, sq3_dist]
  norm_num [hm1, hm2, c8_ring_cell, c8_center_cell]
